import Mathlib

/-!
Verification of the core computational logic of the oceanome-bluemind
backend: the ocean microbiome simulation engine
(`backend/app/core/simulation_engine.py`) and the IoT sensor simulator
(`backend/app/core/sensor_simulator.py`), together with the event-simulation
HTTP endpoint (`backend/app/api/sensors.py`).

Modelling conventions:
- Python floats are modelled as real numbers (`ℝ`); `np.clip(x, lo, hi)`
  is `min hi (max lo x)`, `np.exp`/`math.log` are `Real.exp`/`Real.log`.
- Python's `round(x, d)` is modelled as rounding `x * 10^d` to the nearest
  integer (Mathlib's `round`).  Python uses round-half-to-even; the two
  differ only on exact ties, which do not occur in any statement below.
- The random draws of the sensor generator (`np.random.normal`) are
  supplied explicitly through a `Noise` record, and the wall-clock
  timestamp through a field of that record.
- Mutation of the engine object is modelled by state passing: each method
  returns the updated `OceanSimulationEngine` value.
-/

/-- Environmental parameters (dataclass `EnvironmentalState`). -/
structure EnvironmentalState where
  temperature : ℝ
  nutrients : ℝ
  light : ℝ
  salinity : ℝ
  ph : ℝ := 8.1
  dissolved_oxygen : ℝ := 8.0

/-- Microbiome population state (dataclass `PopulationState`). -/
structure PopulationState where
  phytoplankton : ℝ
  zooplankton : ℝ
  bacteria : ℝ
  cyanobacteria : ℝ := 0.0
  diatoms : ℝ := 0.0
  dinoflagellates : ℝ := 0.0

/-- One entry of `OceanSimulationEngine.history`, appended per step. -/
structure HistoryRecord where
  week : ℕ
  phytoplankton : ℝ
  zooplankton : ℝ
  bacteria : ℝ
  nutrients : ℝ
  temperature : ℝ
  ph : ℝ
  carbon_sequestration : ℝ
  biodiversity : ℝ
  ecosystem_health : ℝ

/-- The mutable state of an `OceanSimulationEngine` instance. -/
structure OceanSimulationEngine where
  env : EnvironmentalState
  pop : PopulationState
  week : ℕ
  history : List HistoryRecord
  total_carbon_sequestered : ℝ

/-- The growth-factor dictionary returned by `calculate_growth_factors`. -/
structure GrowthFactors where
  temperature : ℝ
  nutrients : ℝ
  light : ℝ
  ph : ℝ
  oxygen : ℝ

/-- `np.clip(x, lo, hi)`. -/
noncomputable def clip (x lo hi : ℝ) : ℝ := min hi (max lo x)

/-- Python `round(x, d)` (see the module comment about tie-breaking). -/
noncomputable def roundTo (d : ℕ) (x : ℝ) : ℝ := (round (x * 10 ^ d) : ℤ) / 10 ^ d

namespace OceanSimulationEngine

/-- `OceanSimulationEngine.calculate_growth_factors`. -/
noncomputable def calculate_growth_factors (env : EnvironmentalState) : GrowthFactors :=
  let temp_factor := Real.exp (-((env.temperature - 20) ^ 2) / 100)
  let nutrient_factor := env.nutrients / (env.nutrients + 20)
  let light_factor := env.light / (env.light + 30)
  let ph_factor := Real.exp (-((env.ph - 8.1) ^ 2) / 0.5)
  let oxygen_factor := min 1.0 (env.dissolved_oxygen / 8.0)
  { temperature := temp_factor
    nutrients := nutrient_factor
    light := light_factor
    ph := ph_factor
    oxygen := oxygen_factor }

/-- `OceanSimulationEngine.calculate_carbon_sequestration` (reads only the
population state of the engine). -/
noncomputable def calculate_carbon_sequestration (pop : PopulationState) : ℝ :=
  let carbon_fixed := pop.phytoplankton * 0.001
  let export_efficiency := 0.15
  let remineralization_rate := 0.60
  let net_carbon_sequestered := carbon_fixed * export_efficiency * (1 - remineralization_rate)
  net_carbon_sequestered * (44 / 12)

/-- `OceanSimulationEngine.calculate_biodiversity_index` (reads only the
population state of the engine). -/
noncomputable def calculate_biodiversity_index (pop : PopulationState) : ℝ :=
  let populations : List ℝ := [pop.phytoplankton, pop.zooplankton, pop.bacteria]
  let total := populations.sum
  if total = 0 then 0.0
  else
    let proportions := (populations.filter fun p => decide (0 < p)).map fun p => p / total
    let shannon_index := -((proportions.map fun p => p * Real.log p).sum)
    roundTo 3 (shannon_index / Real.log 3)

/-- `OceanSimulationEngine.calculate_ecosystem_health` (reads the
environment and population of the engine). -/
noncomputable def calculate_ecosystem_health (env : EnvironmentalState) (pop : PopulationState) : ℝ :=
  let ideal_phyto : ℝ := 1500
  let ideal_zoo : ℝ := 700
  let ideal_bacteria : ℝ := 2200
  let pop_health0 :=
    (1 - |pop.phytoplankton - ideal_phyto| / ideal_phyto) * 0.3 +
    (1 - |pop.zooplankton - ideal_zoo| / ideal_zoo) * 0.2 +
    (1 - |pop.bacteria - ideal_bacteria| / ideal_bacteria) * 0.2
  let pop_health := max 0 pop_health0
  let temp_health := 1 - |env.temperature - 20| / 20
  let nutrient_health := env.nutrients / 100
  let ph_health := 1 - |env.ph - 8.1| / 1.5
  let oxygen_health := min 1.0 (env.dissolved_oxygen / 8.0)
  let env_health := (temp_health + nutrient_health + ph_health + oxygen_health) / 4 * 0.3
  let biodiversity_health := calculate_biodiversity_index pop * 0.2
  let total_health := (pop_health + env_health + biodiversity_health) * 100
  roundTo 1 (clip total_health 0 100)

/-- `OceanSimulationEngine._single_step`: one simulation week, updating
populations in the order phytoplankton, zooplankton, bacteria, then
environment, then accounting (carbon, week counter, history). -/
noncomputable def single_step (e : OceanSimulationEngine) : OceanSimulationEngine :=
  let factors := calculate_growth_factors e.env
  let phyto_growth := factors.nutrients * 0.4 + factors.light * 0.35 + factors.temperature * 0.25
  let grazing_loss := e.pop.zooplankton * 0.00015
  let phyto_net_growth := phyto_growth * 0.15 - grazing_loss - 0.05
  let phytoplankton := max 100 (e.pop.phytoplankton * (1 + phyto_net_growth))
  let zoo_food_factor := min 1.0 (phytoplankton / 2000)
  let zoo_growth := zoo_food_factor * factors.temperature * 0.12 - 0.08
  let zooplankton := max 50 (e.pop.zooplankton * (1 + zoo_growth))
  let organic_matter := phytoplankton * 0.0001 + zooplankton * 0.0002
  let bacteria_growth := organic_matter * factors.temperature * 0.15 + factors.nutrients * 0.08 - 0.03
  let bacteria := max 500 (e.pop.bacteria * (1 + bacteria_growth))
  let nutrient_uptake := phytoplankton * 0.00012
  let nutrient_regeneration := bacteria * 0.00008
  let nutrients := clip (e.env.nutrients - nutrient_uptake + nutrient_regeneration + 0.5) 0 100
  let ph_change := phyto_net_growth * 0.01 - bacteria_growth * 0.005
  let ph := clip (e.env.ph + ph_change) 7.5 8.5
  let oxygen_production := phytoplankton * 0.0001
  let oxygen_consumption := (zooplankton + bacteria) * 0.00005
  let dissolved_oxygen := clip (e.env.dissolved_oxygen + oxygen_production - oxygen_consumption) 4.0 12.0
  let pop' : PopulationState :=
    { e.pop with phytoplankton := phytoplankton, zooplankton := zooplankton, bacteria := bacteria }
  let env' : EnvironmentalState :=
    { e.env with nutrients := nutrients, ph := ph, dissolved_oxygen := dissolved_oxygen }
  let carbon_seq := calculate_carbon_sequestration pop'
  let week' := e.week + 1
  let record : HistoryRecord :=
    { week := week'
      phytoplankton := pop'.phytoplankton
      zooplankton := pop'.zooplankton
      bacteria := pop'.bacteria
      nutrients := env'.nutrients
      temperature := env'.temperature
      ph := env'.ph
      carbon_sequestration := carbon_seq
      biodiversity := calculate_biodiversity_index pop'
      ecosystem_health := calculate_ecosystem_health env' pop' }
  { env := env'
    pop := pop'
    week := week'
    history := e.history ++ [record]
    total_carbon_sequestered := e.total_carbon_sequestered + carbon_seq }

/-- `OceanSimulationEngine.step`: `for _ in range(weeks): self._single_step()`
(a non-positive `weeks` performs no iteration). -/
noncomputable def step (e : OceanSimulationEngine) (weeks : ℤ) : OceanSimulationEngine :=
  single_step^[weeks.toNat] e

/-- `OceanSimulationEngine.reset`. -/
noncomputable def reset (e : OceanSimulationEngine) : OceanSimulationEngine :=
  { e with
    week := 0
    history := []
    total_carbon_sequestered := 0.0
    pop :=
      { phytoplankton := 1000
        zooplankton := 500
        bacteria := 2000 } }

end OceanSimulationEngine

/-- `create_simulation_engine` factory (`__init__` sets week 0, empty
history, zero cumulative carbon; `ph`/`dissolved_oxygen` take their
dataclass defaults 8.1 / 8.0). -/
noncomputable def create_simulation_engine (temperature nutrients light salinity : ℝ) : OceanSimulationEngine :=
  { env :=
      { temperature := temperature
        nutrients := nutrients
        light := light
        salinity := salinity }
    pop :=
      { phytoplankton := 1000
        zooplankton := 500
        bacteria := 2000 }
    week := 0
    history := []
    total_carbon_sequestered := 0.0 }

/-- The engine produced by `create_simulation_engine()` with all keyword
defaults (20.0, 50.0, 75.0, 35.0). -/
noncomputable def default_engine : OceanSimulationEngine :=
  create_simulation_engine 20.0 50.0 75.0 35.0

/-- One entry of the list returned by `predict_future`. -/
structure PredictionRecord where
  week : ℕ
  phytoplankton : ℝ
  zooplankton : ℝ
  bacteria : ℝ
  carbon_sequestration : ℝ
  biodiversity : ℝ
  ecosystem_health : ℝ

namespace OceanSimulationEngine

/-- The projection record built from the engine state after one internal
step of `predict_future`. -/
noncomputable def prediction_record (e : OceanSimulationEngine) : PredictionRecord :=
  { week := e.week
    phytoplankton := roundTo 2 e.pop.phytoplankton
    zooplankton := roundTo 2 e.pop.zooplankton
    bacteria := roundTo 2 e.pop.bacteria
    carbon_sequestration := roundTo 4 (calculate_carbon_sequestration e.pop)
    biodiversity := calculate_biodiversity_index e.pop
    ecosystem_health := calculate_ecosystem_health e.env e.pop }

/-- The `for i in range(weeks_ahead)` loop of `predict_future`: repeatedly
run `_single_step` on the live engine, appending one projection record per
iteration. -/
noncomputable def predict_loop : ℕ → OceanSimulationEngine → List PredictionRecord →
    OceanSimulationEngine × List PredictionRecord
  | 0, e, acc => (e, acc)
  | Nat.succ n, e, acc =>
      let e' := single_step e
      predict_loop n e' (acc ++ [prediction_record e'])

/-- `OceanSimulationEngine.predict_future`: snapshot `env`, `pop` and
`week`, run the loop on the live engine, then write the snapshot back.
(The engine's `history` and `total_carbon_sequestered`, which
`_single_step` also mutates, are not part of the snapshot.)  Returns the
post-call engine state together with the list of predictions. -/
noncomputable def predict_future (e : OceanSimulationEngine) (weeks_ahead : ℤ) :
    OceanSimulationEngine × List PredictionRecord :=
  let r := predict_loop weeks_ahead.toNat e []
  ({ r.1 with env := e.env, pop := e.pop, week := e.week }, r.2)

end OceanSimulationEngine

/-- Modelled from the spec, section 4.1: the growth-factor formulas in the
spec's own wording, to be compared with `calculate_growth_factors`. -/
noncomputable def spec_growth_factors (env : EnvironmentalState) : GrowthFactors :=
  { temperature := Real.exp (-(env.temperature - 20) ^ 2 / 100)
    nutrients := env.nutrients / (env.nutrients + 20)
    light := env.light / (env.light + 30)
    ph := Real.exp (-(env.ph - 8.1) ^ 2 / 0.5)
    oxygen := min 1 (env.dissolved_oxygen / 8.0) }

/-- Modelled from the spec, section 4.2: one single update written exactly
as the spec's bullet list (phyto, then zoo, then bacteria, then
nutrients/ph/oxygen, each later formula reading the values already updated
earlier in the same step), to be compared with `single_step`. -/
noncomputable def spec_single_update (env : EnvironmentalState) (pop : PopulationState) :
    EnvironmentalState × PopulationState :=
  let F := spec_growth_factors env
  let phyto_growth := 0.4 * F.nutrients + 0.35 * F.light + 0.25 * F.temperature
  let grazing_loss := pop.zooplankton * 0.00015
  let phyto_net := phyto_growth * 0.15 - grazing_loss - 0.05
  let phytoplankton := max 100 (pop.phytoplankton * (1 + phyto_net))
  let zoo_food := min 1 (phytoplankton / 2000)
  let zoo_growth := zoo_food * F.temperature * 0.12 - 0.08
  let zooplankton := max 50 (pop.zooplankton * (1 + zoo_growth))
  let organic_matter := phytoplankton * 0.0001 + zooplankton * 0.0002
  let bacteria_growth := organic_matter * F.temperature * 0.15 + F.nutrients * 0.08 - 0.03
  let bacteria := max 500 (pop.bacteria * (1 + bacteria_growth))
  let nutrients := clip (env.nutrients - phytoplankton * 0.00012 + bacteria * 0.00008 + 0.5) 0 100
  let ph := clip (env.ph + phyto_net * 0.01 - bacteria_growth * 0.005) 7.5 8.5
  let dissolved_oxygen :=
    clip (env.dissolved_oxygen + phytoplankton * 0.0001 - (zooplankton + bacteria) * 0.00005) 4.0 12.0
  ({ env with nutrients := nutrients, ph := ph, dissolved_oxygen := dissolved_oxygen },
   { pop with phytoplankton := phytoplankton, zooplankton := zooplankton, bacteria := bacteria })

/-- One multi-channel sensor reading as returned by
`SensorDataGenerator.generate_reading` (every numeric channel rounded to
2 decimals at the boundary; the timestamp is an opaque capture time). -/
structure Reading where
  temperature : ℝ
  salinity : ℝ
  ph : ℝ
  dissolved_oxygen : ℝ
  turbidity : ℝ
  nitrate : ℝ
  phosphate : ℝ
  silicate : ℝ
  phytoplankton_count : ℝ
  bacteria_count : ℝ
  timestamp : ℕ

/-- The ambient effects one call to `generate_reading` consumes: one
`np.random.normal` draw per noisy channel and the wall-clock capture
time. -/
structure Noise where
  temp_noise : ℝ
  sal_noise : ℝ
  ph_noise : ℝ
  do_noise : ℝ
  turb_noise : ℝ
  nitrate_noise : ℝ
  phosphate_noise : ℝ
  silicate_noise : ℝ
  phyto_noise : ℝ
  bacteria_noise : ℝ
  now : ℕ

/-- Per-device sensor generator state (class `SensorDataGenerator`). -/
structure SensorDataGenerator where
  base_temperature : ℝ
  base_salinity : ℝ
  latitude : ℝ
  depth : ℝ
  time_offset : ℕ

namespace SensorDataGenerator

/-- `SensorDataGenerator.generate_reading`, with the random draws and the
timestamp supplied through `ω`; returns the reading and the generator with
its hour counter advanced by 1. -/
noncomputable def generate_reading (g : SensorDataGenerator) (ω : Noise) :
    Reading × SensorDataGenerator :=
  let hour_of_day : ℕ := g.time_offset % 24
  let day_of_year : ℕ := (g.time_offset / 24) % 365
  let diurnal_temp := 2.0 * Real.sin (2 * Real.pi * hour_of_day / 24)
  let seasonal_temp := 5.0 * Real.sin (2 * Real.pi * day_of_year / 365)
  let depth_correction := -0.05 * g.depth
  let temperature := g.base_temperature + diurnal_temp + seasonal_temp + depth_correction + ω.temp_noise
  let salinity := g.base_salinity + ω.sal_noise
  let biological_cycle := 0.1 * Real.sin (2 * Real.pi * hour_of_day / 24)
  let ph := 8.1 + biological_cycle + ω.ph_noise
  let day_night_cycle := 1.0 * Real.sin (2 * Real.pi * ((hour_of_day : ℝ) + 12) / 24)
  let do_base := 10.0 - (temperature - 20) * 0.2
  let dissolved_oxygen := max 4.0 (do_base + day_night_cycle + ω.do_noise)
  let turbidity := max 0.1 (1.5 + ω.turb_noise)
  let nitrate := max 0 (5.0 + ω.nitrate_noise)
  let phosphate := max 0 (1.5 + ω.phosphate_noise)
  let silicate := max 0 (8.0 + ω.silicate_noise)
  let phyto_multiplier : ℝ := if 6 ≤ hour_of_day ∧ hour_of_day ≤ 18 then 1.5 else 0.8
  let phytoplankton_count := max 0 (1000 * phyto_multiplier + ω.phyto_noise)
  let bacteria_count := max 0 (5000 + ω.bacteria_noise)
  ({ temperature := roundTo 2 temperature
     salinity := roundTo 2 salinity
     ph := roundTo 2 ph
     dissolved_oxygen := roundTo 2 dissolved_oxygen
     turbidity := roundTo 2 turbidity
     nitrate := roundTo 2 nitrate
     phosphate := roundTo 2 phosphate
     silicate := roundTo 2 silicate
     phytoplankton_count := roundTo 2 phytoplankton_count
     bacteria_count := roundTo 2 bacteria_count
     timestamp := ω.now },
   { g with time_offset := g.time_offset + 1 })

/-- The `if event_type == ... / elif ...` chain of
`SensorDataGenerator.simulate_event`, applied to the freshly generated
reading; every unrecognized tag falls through all branches and returns the
reading unmodified. -/
noncomputable def apply_event (event_type : String) (reading : Reading) : Reading :=
  if event_type = "algal_bloom" then
    { reading with
      phytoplankton_count := reading.phytoplankton_count * 5
      turbidity := reading.turbidity * 3
      dissolved_oxygen := reading.dissolved_oxygen * 1.5
      ph := reading.ph + 0.2 }
  else if event_type = "upwelling" then
    { reading with
      temperature := reading.temperature - 5
      nitrate := reading.nitrate * 3
      phosphate := reading.phosphate * 2.5
      phytoplankton_count := reading.phytoplankton_count * 2 }
  else if event_type = "storm" then
    { reading with
      turbidity := reading.turbidity * 4
      dissolved_oxygen := reading.dissolved_oxygen * 1.3
      temperature := reading.temperature - 2 }
  else if event_type = "pollution" then
    { reading with
      ph := reading.ph - 0.3
      dissolved_oxygen := reading.dissolved_oxygen * 0.6
      turbidity := reading.turbidity * 2
      bacteria_count := reading.bacteria_count * 3 }
  else reading

/-- `SensorDataGenerator.simulate_event`: generate a fresh reading (this
advances the clock) and apply the event transform to it. -/
noncomputable def simulate_event (g : SensorDataGenerator) (ω : Noise) (event_type : String) :
    Reading × SensorDataGenerator :=
  let r := generate_reading g ω
  (apply_event event_type r.1, r.2)

end SensorDataGenerator

/-- A reading returned by a `SmartBuoySimulator` (the generator reading
plus the `zone_id` / `zone_name` keys, and the `event` key when produced
by `simulate_event`). -/
structure BuoyReading where
  reading : Reading
  zone_id : ℤ
  zone_name : String
  event : Option String

/-- A SmartBuoy IoT device simulator (class `SmartBuoySimulator`). -/
structure SmartBuoySimulator where
  zone_id : ℤ
  name : String
  latitude : ℝ
  longitude : ℝ
  depth : ℝ
  sensor : SensorDataGenerator
  is_active : Bool
  readings_count : ℕ

namespace SmartBuoySimulator

/-- `SmartBuoySimulator._calculate_base_temperature`. -/
noncomputable def calculate_base_temperature (latitude : ℝ) : ℝ :=
  let lat_abs := |latitude|
  if lat_abs < 23.5 then 27.0
  else if lat_abs < 40 then 22.0
  else if lat_abs < 60 then 15.0
  else 5.0

/-- `SmartBuoySimulator.__init__` (the constructor builds the sensor
generator from the latitude band, with `base_salinity` left at its
default 35.0 and the hour counter at 0). -/
noncomputable def init (zone_id : ℤ) (name : String) (latitude longitude : ℝ)
    (depth : ℝ) : SmartBuoySimulator :=
  { zone_id := zone_id
    name := name
    latitude := latitude
    longitude := longitude
    depth := depth
    sensor :=
      { base_temperature := calculate_base_temperature latitude
        base_salinity := 35.0
        latitude := latitude
        depth := depth
        time_offset := 0 }
    is_active := true
    readings_count := 0 }

/-- `SmartBuoySimulator.get_current_reading`. -/
noncomputable def get_current_reading (b : SmartBuoySimulator) (ω : Noise) :
    BuoyReading × SmartBuoySimulator :=
  let r := b.sensor.generate_reading ω
  ({ reading := r.1, zone_id := b.zone_id, zone_name := b.name, event := none },
   { b with sensor := r.2 })

/-- `SmartBuoySimulator.simulate_event`. -/
noncomputable def simulate_event (b : SmartBuoySimulator) (ω : Noise) (event_type : String) :
    BuoyReading × SmartBuoySimulator :=
  let r := b.sensor.simulate_event ω event_type
  ({ reading := r.1, zone_id := b.zone_id, zone_name := b.name, event := some event_type },
   { b with sensor := r.2 })

end SmartBuoySimulator

/-- The device registry (class `SensorNetworkManager`): the `buoys` dict
keyed by zone id. -/
structure SensorNetworkManager where
  buoys : ℤ → Option SmartBuoySimulator

namespace SensorNetworkManager

/-- The empty registry the process starts with. -/
def empty : SensorNetworkManager := ⟨fun _ => none⟩

/-- `SensorNetworkManager.add_buoy`: build a new device and store it under
its zone id (a plain dict assignment: any existing entry for that id is
overwritten).  Returns the updated registry and the new device. -/
noncomputable def add_buoy (m : SensorNetworkManager) (zone_id : ℤ) (name : String)
    (latitude longitude depth : ℝ) : SensorNetworkManager × SmartBuoySimulator :=
  let buoy := SmartBuoySimulator.init zone_id name latitude longitude depth
  (⟨fun z => if z = zone_id then some buoy else m.buoys z⟩, buoy)

/-- `SensorNetworkManager.get_buoy` (`dict.get`: the device, or nothing). -/
noncomputable def get_buoy (m : SensorNetworkManager) (zone_id : ℤ) :
    Option SmartBuoySimulator :=
  m.buoys zone_id

/-- `SensorNetworkManager.remove_buoy`: stop and delete the entry when it
exists (modelled on the registry map; the stopped device itself is
discarded). -/
noncomputable def remove_buoy (m : SensorNetworkManager) (zone_id : ℤ) :
    SensorNetworkManager :=
  ⟨fun z => if z = zone_id then none else m.buoys z⟩

end SensorNetworkManager

/-- Outcome of one HTTP endpoint call: either an `HTTPException` with its
status code and detail, or the returned reading. -/
inductive ApiResult where
  | httpError (statusCode : ℕ) (detail : String)
  | ok (reading : BuoyReading)

/-- The event tags accepted by the `simulate-event` endpoint
(`valid_events` in `backend/app/api/sensors.py`). -/
def valid_events : List String := ["algal_bloom", "upwelling", "storm", "pollution"]

namespace sensors_api

/-- The `POST /sensors/zones/.../simulate-event` handler
(`backend/app/api/sensors.py`, `simulate_event`): after the zone ownership
check and the buoy lookup, the tag is validated against `valid_events` and
the request refused with HTTP 400 *before* `buoy.simulate_event` (and
hence `generate_reading`) runs; only a valid tag reaches the device.
Returns the response and the post-call device state. -/
noncomputable def simulate_event (zone_exists : Bool) (buoy : Option SmartBuoySimulator)
    (ω : Noise) (event_type : String) : ApiResult × Option SmartBuoySimulator :=
  if zone_exists = false then
    (.httpError 404 "Sensor zone not found", buoy)
  else
    match buoy with
    | none => (.httpError 400 "Sensor not initialized", none)
    | some b =>
        if event_type ∈ valid_events then
          let r := b.simulate_event ω event_type
          (.ok r.1, some r.2)
        else
          (.httpError 400 "Invalid event type. Must be one of: algal_bloom, upwelling, storm, pollution",
           some b)

end sensors_api

/-- The six attribute names of `EnvironmentalState` (the keys
`update_environment` can set). -/
def env_field_names : List String :=
  ["temperature", "nutrients", "light", "salinity", "ph", "dissolved_oxygen"]

/-- Read an `EnvironmentalState` attribute by name (`getattr`), used to
state the postcondition of `update_environment`. -/
noncomputable def get_attr (env : EnvironmentalState) (key : String) : Option ℝ :=
  if key = "temperature" then some env.temperature
  else if key = "nutrients" then some env.nutrients
  else if key = "light" then some env.light
  else if key = "salinity" then some env.salinity
  else if key = "ph" then some env.ph
  else if key = "dissolved_oxygen" then some env.dissolved_oxygen
  else none

/-- Assignment to one of the six dataclass fields: the ordinary
instance-dict write `setattr` performs for a field name. -/
noncomputable def set_field (env : EnvironmentalState) (key : String) (value : ℝ) : EnvironmentalState :=
  if key = "temperature" then { env with temperature := value }
  else if key = "nutrients" then { env with nutrients := value }
  else if key = "light" then { env with light := value }
  else if key = "salinity" then { env with salinity := value }
  else if key = "ph" then { env with ph := value }
  else if key = "dissolved_oxygen" then { env with dissolved_oxygen := value }
  else env

/-- The attribute names a fresh `EnvironmentalState` instance answers
`hasattr` for beyond its six dataclass fields: the class-level attributes
inherited from `object` plus those added by the `@dataclass` decorator
(as reported by CPython 3.11; the exact set varies slightly with the
interpreter version, and the theorems below rely only on the six field
names being absent and on membership of the specific names they
mention). -/
def env_class_attr_names : List String :=
  ["__annotations__", "__class__", "__dataclass_fields__", "__dataclass_params__",
   "__delattr__", "__dict__", "__dir__", "__doc__", "__eq__", "__format__",
   "__ge__", "__getattribute__", "__getstate__", "__gt__", "__hash__",
   "__init__", "__init_subclass__", "__le__", "__lt__", "__match_args__",
   "__module__", "__ne__", "__new__", "__reduce__", "__reduce_ex__",
   "__repr__", "__setattr__", "__sizeof__", "__str__", "__subclasshook__",
   "__weakref__"]

/-- A runtime `EnvironmentalState` instance as `setattr` sees it: the six
dataclass fields plus any additional instance attributes a `setattr` on an
inherited name has created (the instance `__dict__` overlay, empty at
construction). -/
structure EnvInstance where
  fields : EnvironmentalState
  extra_attrs : List (String × ℝ)

/-- Outcome of a Python attribute update: a normal return, or a raised
exception (named by its class) together with the object state at raise
time — mutations made before the raise persist, as they do on the
in-place Python object. -/
inductive EnvUpdateResult where
  | ok (env : EnvInstance)
  | raised (exc : String) (env : EnvInstance)

/-- `hasattr(env, key)`: true for the six fields, for every inherited
class attribute, and for any instance attribute created earlier. -/
def py_hasattr (env : EnvInstance) (key : String) : Prop :=
  key ∈ env_field_names ∨ key ∈ env_class_attr_names ∨ key ∈ env.extra_attrs.map Prod.fst

instance (env : EnvInstance) (key : String) : Decidable (py_hasattr env key) :=
  inferInstanceAs (Decidable
    (key ∈ env_field_names ∨ key ∈ env_class_attr_names ∨ key ∈ env.extra_attrs.map Prod.fst))

/-- Python dict assignment `d[k] = v`: overwrite in place when the key is
present, append otherwise. -/
noncomputable def dict_set (d : List (String × ℝ)) (k : String) (v : ℝ) : List (String × ℝ) :=
  if k ∈ d.map Prod.fst then d.map fun kv => if kv.1 = k then (k, v) else kv
  else d ++ [(k, v)]

/-- `setattr(env, key, value)` with a float value: a field name updates
that field; the non-writable data descriptors raise (`__class__` and
`__dict__` with TypeError, `__weakref__` with AttributeError, per
CPython); every other name is written into the instance `__dict__`,
shadowing any inherited class attribute. -/
noncomputable def py_setattr (env : EnvInstance) (key : String) (value : ℝ) : EnvUpdateResult :=
  if key ∈ env_field_names then .ok { env with fields := set_field env.fields key value }
  else if key = "__class__" then .raised "TypeError" env
  else if key = "__dict__" then .raised "TypeError" env
  else if key = "__weakref__" then .raised "AttributeError" env
  else .ok { env with extra_attrs := dict_set env.extra_attrs key value }

/-- `OceanSimulationEngine.update_environment(**kwargs)`: iterate over the
keyword arguments (a Python dict: keys are distinct strings, iteration
follows insertion order) and run `setattr(self.env, key, value)` for each
key that passes `hasattr(self.env, key)`; a raised exception propagates
out of the loop, abandoning the remaining entries.  The method touches
only `self.env`, so it is modelled on the env instance. -/
noncomputable def update_environment : EnvInstance → List (String × ℝ) → EnvUpdateResult
  | env, [] => .ok env
  | env, kv :: rest =>
      if py_hasattr env kv.1 then
        match py_setattr env kv.1 kv.2 with
        | .ok env2 => update_environment env2 rest
        | .raised exc env2 => .raised exc env2
      else update_environment env rest

/-- The env instance of the freshly created default engine (dataclass
fields only, empty instance-attribute overlay). -/
noncomputable def default_env_instance : EnvInstance :=
  { fields := default_engine.env, extra_attrs := [] }

namespace OceanSimulationEngine

/-- C7: `reset()` sets week to 0, clears the history, resets cumulative
sequestered carbon to 0, and restores the population to exactly
phytoplankton 1000, zooplankton 500, bacteria 2000, for every prior
engine state. -/
theorem reset_restores_initial_population (e : OceanSimulationEngine) :
    (reset e).week = 0 ∧ (reset e).history = [] ∧
    (reset e).total_carbon_sequestered = 0 ∧
    (reset e).pop.phytoplankton = 1000 ∧ (reset e).pop.zooplankton = 500 ∧
    (reset e).pop.bacteria = 2000 :=
  ⟨rfl, rfl, by norm_num [reset], rfl, rfl, rfl⟩

/-- Every engine produced by one `_single_step` satisfies the population
floors and the clipped environment ranges, whatever the input state. -/
theorem single_step_bounds (e : OceanSimulationEngine) :
    100 ≤ (single_step e).pop.phytoplankton ∧
    50 ≤ (single_step e).pop.zooplankton ∧
    500 ≤ (single_step e).pop.bacteria ∧
    7.5 ≤ (single_step e).env.ph ∧ (single_step e).env.ph ≤ 8.5 ∧
    4.0 ≤ (single_step e).env.dissolved_oxygen ∧ (single_step e).env.dissolved_oxygen ≤ 12.0 ∧
    0 ≤ (single_step e).env.nutrients ∧ (single_step e).env.nutrients ≤ 100 := by
  refine ⟨?_, ?_, ?_, ?_, ?_, ?_, ?_, ?_, ?_⟩ <;>
    simp only [single_step, clip] <;>
    first
      | exact le_max_left _ _
      | exact le_min (by norm_num) (le_max_left _ _)
      | exact min_le_left _ _

/-- C2: after any call to `step` with `weeks ≥ 1`, from any engine state:
phytoplankton ≥ 100, zooplankton ≥ 50, bacteria ≥ 500, ph ∈ [7.5, 8.5],
dissolved_oxygen ∈ [4.0, 12.0] and nutrients ∈ [0, 100]. -/
theorem step_invariants (e : OceanSimulationEngine) (weeks : ℤ) (h : 1 ≤ weeks) :
    100 ≤ (step e weeks).pop.phytoplankton ∧
    50 ≤ (step e weeks).pop.zooplankton ∧
    500 ≤ (step e weeks).pop.bacteria ∧
    7.5 ≤ (step e weeks).env.ph ∧ (step e weeks).env.ph ≤ 8.5 ∧
    4.0 ≤ (step e weeks).env.dissolved_oxygen ∧ (step e weeks).env.dissolved_oxygen ≤ 12.0 ∧
    0 ≤ (step e weeks).env.nutrients ∧ (step e weeks).env.nutrients ≤ 100 := by
  obtain ⟨n, hn⟩ : ∃ n, weeks.toNat = n + 1 := ⟨weeks.toNat - 1, by omega⟩
  rw [step, hn, Function.iterate_succ_apply']
  exact single_step_bounds _

/-- Witness for C2 at the default engine and `weeks = 1`. -/
theorem step_invariants_witness :
    100 ≤ (step default_engine 1).pop.phytoplankton ∧
    50 ≤ (step default_engine 1).pop.zooplankton ∧
    500 ≤ (step default_engine 1).pop.bacteria ∧
    7.5 ≤ (step default_engine 1).env.ph ∧ (step default_engine 1).env.ph ≤ 8.5 ∧
    4.0 ≤ (step default_engine 1).env.dissolved_oxygen ∧
    (step default_engine 1).env.dissolved_oxygen ≤ 12.0 ∧
    0 ≤ (step default_engine 1).env.nutrients ∧ (step default_engine 1).env.nutrients ≤ 100 :=
  step_invariants default_engine 1 (by norm_num)

/-- C9: `reset()` leaves the environmental state entirely unchanged
(temperature, nutrients, light, salinity, ph, dissolved_oxygen keep their
current values); it modifies only the week counter, the history, the
cumulative carbon and the population. -/
theorem reset_preserves_environment (e : OceanSimulationEngine) :
    (reset e).env = e.env ∧
    reset e =
      { e with
        week := 0
        history := []
        total_carbon_sequestered := 0
        pop := PopulationState.mk 1000 500 2000 0 0 0 } :=
  ⟨rfl, by norm_num [reset]⟩

end OceanSimulationEngine

/-- C5: `simulate_event` with tag `algal_bloom` returns the freshly
generated reading with phytoplankton_count multiplied by exactly 5,
turbidity by exactly 3, dissolved_oxygen by exactly 1.5, ph increased by
exactly 0.2, and every other channel (temperature, salinity, nitrate,
phosphate, silicate, bacteria_count, timestamp) unchanged. -/
theorem simulate_event_algal_bloom (g : SensorDataGenerator) (ω : Noise) :
    (g.simulate_event ω "algal_bloom").1 =
      { (g.generate_reading ω).1 with
        phytoplankton_count := (g.generate_reading ω).1.phytoplankton_count * 5
        turbidity := (g.generate_reading ω).1.turbidity * 3
        dissolved_oxygen := (g.generate_reading ω).1.dissolved_oxygen * 1.5
        ph := (g.generate_reading ω).1.ph + 0.2 } := by
  rfl

/-- C8: `add_buoy` on the registry creates a device built from exactly the
given parameters and registers it under the zone id, silently overwriting
any existing entry: after two `add_buoy` calls for the same id, `get_buoy`
returns the device built from the second call's parameters only. -/
theorem add_buoy_overwrites (m : SensorNetworkManager) (zid : ℤ)
    (n1 : String) (la1 lo1 d1 : ℝ) (n2 : String) (la2 lo2 d2 : ℝ) :
    ((m.add_buoy zid n1 la1 lo1 d1).1.get_buoy zid
        = some (SmartBuoySimulator.init zid n1 la1 lo1 d1)) ∧
    ((((m.add_buoy zid n1 la1 lo1 d1).1.add_buoy zid n2 la2 lo2 d2).1.get_buoy zid)
        = some (SmartBuoySimulator.init zid n2 la2 lo2 d2)) := by
  constructor <;>
    simp [SensorNetworkManager.add_buoy, SensorNetworkManager.get_buoy]

/-- C4: the caller-facing `simulate-event` endpoint refuses every tag
outside the enumerated set with HTTP 400, before the device generates a
reading: the device (including its internal clock) is returned untouched
and no reading is produced.  (The core `simulate_event` itself does not
reject: its `if/elif` chain falls through, see `apply_event`.) -/
theorem simulate_event_rejects_unknown_tag (b : SmartBuoySimulator) (ω : Noise)
    (tag : String) (h : tag ∉ valid_events) :
    sensors_api.simulate_event true (some b) ω tag =
      (ApiResult.httpError 400
        "Invalid event type. Must be one of: algal_bloom, upwelling, storm, pollution",
       some b) := by
  simp [sensors_api.simulate_event, h]

/-- Witness for C4: the unrecognized tag "tsunami" is rejected. -/
theorem simulate_event_rejects_unknown_tag_witness :
    sensors_api.simulate_event true (some (SmartBuoySimulator.init 1 "zone-a" 10 20 0))
        (Noise.mk 0 0 0 0 0 0 0 0 0 0 0) "tsunami" =
      (ApiResult.httpError 400
        "Invalid event type. Must be one of: algal_bloom, upwelling, storm, pollution",
       some (SmartBuoySimulator.init 1 "zone-a" 10 20 0)) :=
  simulate_event_rejects_unknown_tag _ _ _ (by decide)

namespace OceanSimulationEngine

/-- At the factory defaults the Gaussian factors sit at their optima
(`exp 0 = 1`) and the Monod factors are exactly 5/7. -/
theorem growth_factors_default :
    calculate_growth_factors default_engine.env = ⟨1, 5 / 7, 5 / 7, 1, 1⟩ := by
  simp only [calculate_growth_factors, default_engine, create_simulation_engine]
  congr 1
  · rw [show -(((20.0 : ℝ) - 20) ^ 2) / 100 = 0 by norm_num, Real.exp_zero]
  · norm_num
  · norm_num
  · rw [show -(((8.1 : ℝ) - 8.1) ^ 2) / 0.5 = 0 by norm_num, Real.exp_zero]
  · norm_num

/-- The exact values of one `_single_step` from the factory defaults. -/
theorem single_step_default_fields :
    (single_step default_engine).pop.phytoplankton = 6950 / 7 ∧
    (single_step default_engine).pop.zooplankton = 6857 / 14 ∧
    (single_step default_engine).pop.bacteria = 1479421 / 700 ∧
    (single_step default_engine).env.nutrients = 442311921 / 8750000 ∧
    (single_step default_engine).env.ph = 323985797 / 40000000 ∧
    (single_step default_engine).env.dissolved_oxygen = 15938247 / 2000000 := by
  have hf := growth_factors_default
  refine ⟨?_, ?_, ?_, ?_, ?_, ?_⟩ <;>
    · simp only [single_step, clip]
      rw [hf]
      simp only [default_engine, create_simulation_engine]
      norm_num [max_def, min_def]

end OceanSimulationEngine

namespace OceanSimulationEngine

/-- C3: one `_single_step` computes exactly the closed-form update of spec
section 4.2, in the order phytoplankton, zooplankton, bacteria, then
nutrients/ph/oxygen, each later formula reading the already-updated values
(the zooplankton food factor uses the new phytoplankton; the bacterial
organic matter uses the new phytoplankton and zooplankton); in particular,
from the factory defaults (20.0, 50.0, 75.0, 35.0) and population
(1000, 500, 2000), one step yields exactly the values of those formulas
applied once. -/
theorem single_step_matches_spec :
    (∀ e : OceanSimulationEngine,
      ((single_step e).env, (single_step e).pop) = spec_single_update e.env e.pop) ∧
    ((single_step default_engine).pop.phytoplankton = 6950 / 7 ∧
     (single_step default_engine).pop.zooplankton = 6857 / 14 ∧
     (single_step default_engine).pop.bacteria = 1479421 / 700 ∧
     (single_step default_engine).env.nutrients = 442311921 / 8750000 ∧
     (single_step default_engine).env.ph = 323985797 / 40000000 ∧
     (single_step default_engine).env.dissolved_oxygen = 15938247 / 2000000) := by
  constructor
  · intro e
    have hF : spec_growth_factors e.env = calculate_growth_factors e.env := by
      simp only [spec_growth_factors, calculate_growth_factors]
      norm_num
    simp only [single_step, spec_single_update, hF]
    have h10 : (1.0 : ℝ) = 1 := by norm_num
    rw [h10]
    have hpg : (calculate_growth_factors e.env).nutrients * 0.4 +
        (calculate_growth_factors e.env).light * 0.35 +
        (calculate_growth_factors e.env).temperature * 0.25 =
        0.4 * (calculate_growth_factors e.env).nutrients +
        0.35 * (calculate_growth_factors e.env).light +
        0.25 * (calculate_growth_factors e.env).temperature := by ring
    rw [hpg]
    refine Prod.ext ?_ ?_ <;>
      · congr 1 <;> first | rfl | (congr 1 <;> first | rfl | ring)
  · exact single_step_default_fields

end OceanSimulationEngine

namespace OceanSimulationEngine

/-- Each internal step of the prediction loop appends one history record
to the live engine. -/
theorem single_step_history_length (e : OceanSimulationEngine) :
    (single_step e).history.length = e.history.length + 1 := by
  simp [single_step]

/-- The prediction loop produces one projection record per iteration. -/
theorem predict_loop_record_count (n : ℕ) :
    ∀ (e : OceanSimulationEngine) (acc : List PredictionRecord),
      (predict_loop n e acc).2.length = acc.length + n := by
  induction n with
  | zero => intro e acc; rfl
  | succ m ih =>
      intro e acc
      rw [predict_loop, ih]
      simp
      omega

/-- The prediction loop also appends one history record per iteration to
the live engine it runs on. -/
theorem predict_loop_history_length (n : ℕ) :
    ∀ (e : OceanSimulationEngine) (acc : List PredictionRecord),
      (predict_loop n e acc).1.history.length = e.history.length + n := by
  induction n with
  | zero => intro e acc; rfl
  | succ m ih =>
      intro e acc
      rw [predict_loop, ih, single_step_history_length]
      omega

/-- C1 (code bug evidence): `predict_future(engine, 1)` on the freshly
created default engine restores the environment, the population and the
week counter and returns exactly one projection record — but it appends
that projection to the engine's real `history` (length 0 before the call,
1 after) and adds the projected week's carbon to
`total_carbon_sequestered` (0 before, 1529/7000 after), so the
caller-visible state, including `current_state()`, is not left
identical. -/
theorem predict_future_mutates_visible_state :
    ((predict_future default_engine 1).1.env = default_engine.env) ∧
    ((predict_future default_engine 1).1.pop = default_engine.pop) ∧
    ((predict_future default_engine 1).1.week = default_engine.week) ∧
    ((predict_future default_engine 1).2.length = 1) ∧
    (default_engine.history.length = 0) ∧
    ((predict_future default_engine 1).1.history.length = 1) ∧
    (default_engine.total_carbon_sequestered = 0) ∧
    ((predict_future default_engine 1).1.total_carbon_sequestered = 1529 / 7000) := by
  refine ⟨rfl, rfl, rfl, ?_, rfl, ?_, by norm_num [default_engine, create_simulation_engine], ?_⟩
  · rw [predict_future]
    exact predict_loop_record_count 1 default_engine []
  · rw [predict_future]
    show (predict_loop 1 default_engine []).1.history.length = 1
    rw [predict_loop_history_length 1 default_engine []]
    rfl
  · rw [predict_future]
    show (predict_loop 1 default_engine []).1.total_carbon_sequestered = 1529 / 7000
    have hstep : (predict_loop 1 default_engine []).1 = single_step default_engine := rfl
    rw [hstep]
    have htot : (single_step default_engine).total_carbon_sequestered =
        default_engine.total_carbon_sequestered +
          calculate_carbon_sequestration (single_step default_engine).pop := rfl
    rw [htot, calculate_carbon_sequestration, single_step_default_fields.1]
    norm_num [default_engine, create_simulation_engine]

end OceanSimulationEngine

/-- Rounding preserves an exact zero. -/
theorem roundTo_zero (d : ℕ) : roundTo d 0 = 0 := by simp [roundTo]

/-- Rounding preserves an exact one. -/
theorem roundTo_one (d : ℕ) : roundTo d 1 = 1 := by
  rw [roundTo, one_mul, show ((10:ℝ)^d) = ((10^d : ℤ) : ℝ) by push_cast; ring, round_intCast]
  rw [div_self (by positivity)]

namespace OceanSimulationEngine

/-- Guarded degenerate case: zero total population yields index 0. -/
theorem biodiversity_zero_total (pop : PopulationState)
    (h : pop.phytoplankton + pop.zooplankton + pop.bacteria = 0) :
    calculate_biodiversity_index pop = 0 := by
  simp only [calculate_biodiversity_index, List.sum_cons, List.sum_nil]
  rw [if_pos (by linarith)]
  norm_num

/-- Three equal positive populations yield index exactly 1. -/
theorem biodiversity_equal_populations (pop : PopulationState) (hp : 0 < pop.phytoplankton)
    (hz : pop.zooplankton = pop.phytoplankton) (hb : pop.bacteria = pop.phytoplankton) :
    calculate_biodiversity_index pop = 1 := by
  have hp' : pop.phytoplankton ≠ 0 := ne_of_gt hp
  simp only [calculate_biodiversity_index, hz, hb, List.sum_cons, List.sum_nil]
  rw [if_neg (by intro h; linarith)]
  rw [show List.filter (fun p => decide (0 < p))
        [pop.phytoplankton, pop.phytoplankton, pop.phytoplankton] =
      [pop.phytoplankton, pop.phytoplankton, pop.phytoplankton] from by
    simp [List.filter_cons, hp]]
  rw [show pop.phytoplankton + (pop.phytoplankton + (pop.phytoplankton + 0)) =
      3 * pop.phytoplankton from by ring]
  have hdiv : pop.phytoplankton / (3 * pop.phytoplankton) = 1 / 3 := by
    field_simp
    ring
  simp only [List.map_cons, List.map_nil, hdiv, List.sum_cons, List.sum_nil]
  have hlog : Real.log ((1 : ℝ) / 3) = -Real.log 3 := by rw [one_div, Real.log_inv]
  rw [hlog]
  have hlog3 : Real.log 3 ≠ 0 := ne_of_gt (Real.log_pos (by norm_num))
  rw [show -(1 / 3 * -Real.log 3 + (1 / 3 * -Real.log 3 + (1 / 3 * -Real.log 3 + 0))) =
      Real.log 3 from by ring]
  rw [div_self hlog3]
  exact roundTo_one 3

/-- Only phytoplankton nonzero: index 0. -/
theorem biodiversity_single_phyto (pop : PopulationState) (hp : pop.phytoplankton ≠ 0)
    (hz : pop.zooplankton = 0) (hb : pop.bacteria = 0) :
    calculate_biodiversity_index pop = 0 := by
  simp only [calculate_biodiversity_index, hz, hb, List.sum_cons, List.sum_nil]
  rw [if_neg (by simpa using hp)]
  rcases lt_or_gt_of_ne hp with hneg | hpos
  · rw [show List.filter (fun p => decide (0 < p)) [pop.phytoplankton, 0, 0] = [] from by
      simp [List.filter_cons, lt_asymm hneg]]
    simp [roundTo_zero]
  · rw [show List.filter (fun p => decide (0 < p)) [pop.phytoplankton, 0, 0] =
        [pop.phytoplankton] from by simp [List.filter_cons, hpos]]
    rw [show pop.phytoplankton + (0 + (0 + 0)) = pop.phytoplankton from by ring]
    simp only [List.map_cons, List.map_nil, div_self hp, List.sum_cons, List.sum_nil]
    simp [Real.log_one, roundTo_zero]

/-- Only zooplankton nonzero: index 0. -/
theorem biodiversity_single_zoo (pop : PopulationState) (hp : pop.phytoplankton = 0)
    (hz : pop.zooplankton ≠ 0) (hb : pop.bacteria = 0) :
    calculate_biodiversity_index pop = 0 := by
  simp only [calculate_biodiversity_index, hp, hb, List.sum_cons, List.sum_nil]
  rw [if_neg (by simpa using hz)]
  rcases lt_or_gt_of_ne hz with hneg | hpos
  · rw [show List.filter (fun p => decide (0 < p)) [0, pop.zooplankton, 0] = [] from by
      simp [List.filter_cons, lt_asymm hneg]]
    simp [roundTo_zero]
  · rw [show List.filter (fun p => decide (0 < p)) [0, pop.zooplankton, 0] =
        [pop.zooplankton] from by simp [List.filter_cons, hpos]]
    rw [show (0 : ℝ) + (pop.zooplankton + (0 + 0)) = pop.zooplankton from by ring]
    simp only [List.map_cons, List.map_nil, div_self hz, List.sum_cons, List.sum_nil]
    simp [Real.log_one, roundTo_zero]

/-- Only bacteria nonzero: index 0. -/
theorem biodiversity_single_bacteria (pop : PopulationState) (hp : pop.phytoplankton = 0)
    (hz : pop.zooplankton = 0) (hb : pop.bacteria ≠ 0) :
    calculate_biodiversity_index pop = 0 := by
  simp only [calculate_biodiversity_index, hp, hz, List.sum_cons, List.sum_nil]
  rw [if_neg (by simpa using hb)]
  rcases lt_or_gt_of_ne hb with hneg | hpos
  · rw [show List.filter (fun p => decide (0 < p)) [0, 0, pop.bacteria] = [] from by
      simp [List.filter_cons, lt_asymm hneg]]
    simp [roundTo_zero]
  · rw [show List.filter (fun p => decide (0 < p)) [0, 0, pop.bacteria] =
        [pop.bacteria] from by simp [List.filter_cons, hpos]]
    rw [show (0 : ℝ) + (0 + (pop.bacteria + 0)) = pop.bacteria from by ring]
    simp only [List.map_cons, List.map_nil, div_self hb, List.sum_cons, List.sum_nil]
    simp [Real.log_one, roundTo_zero]

/-- C6: the biodiversity index (the Shannon index over the proportions of
phytoplankton/zooplankton/bacteria, zero-population species excluded,
normalized by ln 3 — see `calculate_biodiversity_index`, whose guard makes
a zero total return 0.0 instead of dividing by zero) returns 0 when the
total population is 0, is exactly 1 when the three populations are equal
and nonzero, and is exactly 0 when exactly one population is nonzero. -/
theorem biodiversity_index_props :
    (∀ pop : PopulationState,
      pop.phytoplankton + pop.zooplankton + pop.bacteria = 0 →
      calculate_biodiversity_index pop = 0) ∧
    (∀ pop : PopulationState, 0 < pop.phytoplankton →
      pop.zooplankton = pop.phytoplankton → pop.bacteria = pop.phytoplankton →
      calculate_biodiversity_index pop = 1) ∧
    (∀ pop : PopulationState,
      ((pop.phytoplankton ≠ 0 ∧ pop.zooplankton = 0 ∧ pop.bacteria = 0) ∨
       (pop.phytoplankton = 0 ∧ pop.zooplankton ≠ 0 ∧ pop.bacteria = 0) ∨
       (pop.phytoplankton = 0 ∧ pop.zooplankton = 0 ∧ pop.bacteria ≠ 0)) →
      calculate_biodiversity_index pop = 0) := by
  refine ⟨biodiversity_zero_total, biodiversity_equal_populations, ?_⟩
  intro pop h
  rcases h with ⟨hp, hz, hb⟩ | ⟨hp, hz, hb⟩ | ⟨hp, hz, hb⟩
  · exact biodiversity_single_phyto pop hp hz hb
  · exact biodiversity_single_zoo pop hp hz hb
  · exact biodiversity_single_bacteria pop hp hz hb

/-- Witness for C6 at populations (0,0,0), (100,100,100) and (100,0,0). -/
theorem biodiversity_index_props_witness :
    calculate_biodiversity_index (PopulationState.mk 0 0 0 0 0 0) = 0 ∧
    calculate_biodiversity_index (PopulationState.mk 100 100 100 0 0 0) = 1 ∧
    calculate_biodiversity_index (PopulationState.mk 100 0 0 0 0 0) = 0 :=
  ⟨biodiversity_index_props.1 _ (by norm_num),
   biodiversity_index_props.2.1 _ (by norm_num) rfl rfl,
   biodiversity_index_props.2.2 _ (Or.inl ⟨by norm_num, rfl, rfl⟩)⟩

end OceanSimulationEngine


/-- Frame: `set_field` with another key preserves `temperature`. -/
theorem set_field_temperature (env : EnvironmentalState) (key : String) (v : ℝ)
    (h : key ≠ "temperature") : (set_field env key v).temperature = env.temperature := by
  unfold set_field
  split_ifs with h1 <;> first | rfl | exact absurd h1 h

/-- Frame: `set_field` with another key preserves `nutrients`. -/
theorem set_field_nutrients (env : EnvironmentalState) (key : String) (v : ℝ)
    (h : key ≠ "nutrients") : (set_field env key v).nutrients = env.nutrients := by
  unfold set_field
  split_ifs with h1 h2 <;> first | rfl | exact absurd h2 h

/-- Frame: `set_field` with another key preserves `light`. -/
theorem set_field_light (env : EnvironmentalState) (key : String) (v : ℝ)
    (h : key ≠ "light") : (set_field env key v).light = env.light := by
  unfold set_field
  split_ifs with h1 h2 h3 <;> first | rfl | exact absurd h3 h

/-- Frame: `set_field` with another key preserves `salinity`. -/
theorem set_field_salinity (env : EnvironmentalState) (key : String) (v : ℝ)
    (h : key ≠ "salinity") : (set_field env key v).salinity = env.salinity := by
  unfold set_field
  split_ifs with h1 h2 h3 h4 <;> first | rfl | exact absurd h4 h

/-- Frame: `set_field` with another key preserves `ph`. -/
theorem set_field_ph (env : EnvironmentalState) (key : String) (v : ℝ)
    (h : key ≠ "ph") : (set_field env key v).ph = env.ph := by
  unfold set_field
  split_ifs with h1 h2 h3 h4 h5 <;> first | rfl | exact absurd h5 h

/-- Frame: `set_field` with another key preserves `dissolved_oxygen`. -/
theorem set_field_dissolved_oxygen (env : EnvironmentalState) (key : String) (v : ℝ)
    (h : key ≠ "dissolved_oxygen") :
    (set_field env key v).dissolved_oxygen = env.dissolved_oxygen := by
  unfold set_field
  split_ifs with h1 h2 h3 h4 h5 h6 <;> first | rfl | exact absurd h6 h

/-- Reading any attribute other than the one `set_field` wrote is
unchanged. -/
theorem get_attr_set_field_ne (env : EnvironmentalState) (key k : String) (v : ℝ)
    (h : k ≠ key) : get_attr (set_field env key v) k = get_attr env k := by
  unfold get_attr
  split_ifs with h1 h2 h3 h4 h5 h6
  · exact congrArg some (set_field_temperature env key v fun hk => h (h1.trans hk.symm))
  · exact congrArg some (set_field_nutrients env key v fun hk => h (h2.trans hk.symm))
  · exact congrArg some (set_field_light env key v fun hk => h (h3.trans hk.symm))
  · exact congrArg some (set_field_salinity env key v fun hk => h (h4.trans hk.symm))
  · exact congrArg some (set_field_ph env key v fun hk => h (h5.trans hk.symm))
  · exact congrArg some (set_field_dissolved_oxygen env key v fun hk => h (h6.trans hk.symm))
  · rfl

/-- Reading the attribute `set_field` wrote yields the written value. -/
theorem get_attr_set_field_self (env : EnvironmentalState) (k : String) (v : ℝ)
    (h : k ∈ env_field_names) : get_attr (set_field env k v) k = some v := by
  simp only [env_field_names, List.mem_cons, List.not_mem_nil, or_false] at h
  rcases h with rfl | rfl | rfl | rfl | rfl | rfl <;> simp [get_attr, set_field]

/-- A successful `py_setattr` never changes a dataclass field other than
the named key. -/
theorem py_setattr_ok_fields_ne (env : EnvInstance) (key k : String) (v : ℝ)
    (env' : EnvInstance) (hne : k ≠ key) (h : py_setattr env key v = .ok env') :
    get_attr env'.fields k = get_attr env.fields k := by
  unfold py_setattr at h
  by_cases h1 : key ∈ env_field_names
  · rw [if_pos h1] at h
    injection h with h'
    subst h'
    exact get_attr_set_field_ne env.fields key k v hne
  · rw [if_neg h1] at h
    by_cases h2 : key = "__class__"
    · rw [if_pos h2] at h
      cases h
    · rw [if_neg h2] at h
      by_cases h3 : key = "__dict__"
      · rw [if_pos h3] at h
        cases h
      · rw [if_neg h3] at h
        by_cases h4 : key = "__weakref__"
        · rw [if_pos h4] at h
          cases h
        · rw [if_neg h4] at h
          injection h with h'
          subst h'
          rfl

/-- Writing an instance attribute the object already answers `hasattr`
for does not change the set of attribute names. -/
theorem py_hasattr_dict_set (env : EnvInstance) (k : String) (v : ℝ)
    (hk : py_hasattr env k) (k' : String) :
    py_hasattr { env with extra_attrs := dict_set env.extra_attrs k v } k' ↔ py_hasattr env k' := by
  unfold py_hasattr at *
  unfold dict_set
  by_cases hmem : k ∈ env.extra_attrs.map Prod.fst
  · rw [if_pos hmem]
    have hkeys : ((env.extra_attrs.map fun kv => if kv.1 = k then (k, v) else kv).map Prod.fst)
        = env.extra_attrs.map Prod.fst := by
      rw [List.map_map]
      refine List.map_congr_left fun kv _ => ?_
      by_cases hkv : kv.1 = k
      · simp [hkv]
      · simp [hkv]
    rw [hkeys]
  · rw [if_neg hmem]
    simp only [List.map_append, List.map_cons, List.map_nil, List.mem_append,
      List.mem_singleton]
    constructor
    · rintro (h | h | h | rfl)
      exacts [Or.inl h, Or.inr (Or.inl h), Or.inr (Or.inr h), hk]
    · rintro (h | h | h)
      exacts [Or.inl h, Or.inr (Or.inl h), Or.inr (Or.inr (Or.inl h))]

/-- A successful `py_setattr` on a key the object already has leaves
`hasattr` pointwise unchanged. -/
theorem py_setattr_hasattr (env : EnvInstance) (k : String) (v : ℝ) (env' : EnvInstance)
    (hk : py_hasattr env k) (h : py_setattr env k v = .ok env') (k' : String) :
    py_hasattr env' k' ↔ py_hasattr env k' := by
  unfold py_setattr at h
  by_cases h1 : k ∈ env_field_names
  · rw [if_pos h1] at h
    injection h with h'
    subst h'
    exact Iff.rfl
  · rw [if_neg h1] at h
    by_cases h2 : k = "__class__"
    · rw [if_pos h2] at h
      cases h
    · rw [if_neg h2] at h
      by_cases h3 : k = "__dict__"
      · rw [if_pos h3] at h
        cases h
      · rw [if_neg h3] at h
        by_cases h4 : k = "__weakref__"
        · rw [if_pos h4] at h
          cases h
        · rw [if_neg h4] at h
          injection h with h'
          subst h'
          exact py_hasattr_dict_set env k v hk k'

/-- Keys the env object has no attribute for contribute nothing to
`update_environment`: the run equals the run on the mapping restricted to
`hasattr`-true keys. -/
theorem update_environment_filter (kwargs : List (String × ℝ)) :
    ∀ env : EnvInstance,
      update_environment env kwargs =
        update_environment env (kwargs.filter fun kv => decide (py_hasattr env kv.1)) := by
  induction kwargs with
  | nil => intro env; rfl
  | cons kv rest ih =>
      intro env
      rw [List.filter_cons]
      by_cases hk : py_hasattr env kv.1
      · rw [if_pos (by simpa using hk)]
        simp only [update_environment]
        rw [if_pos hk, if_pos hk]
        cases hset : py_setattr env kv.1 kv.2 with
        | ok env2 =>
            simp only [hset]
            rw [ih env2]
            congr 1
            refine List.filter_congr fun kv' _ => ?_
            rw [decide_eq_decide]
            exact py_setattr_hasattr env kv.1 kv.2 env2 hk hset kv'.1
        | raised exc env2 =>
            simp only [hset]
      · rw [if_neg (by simpa using hk)]
        simp only [update_environment]
        rw [if_neg hk]
        exact ih env

/-- On a successful run, a field whose name is not in the mapping keeps
its value. -/
theorem update_environment_frame (kwargs : List (String × ℝ)) :
    ∀ (env env' : EnvInstance) (k : String),
      k ∉ kwargs.map Prod.fst →
      update_environment env kwargs = .ok env' →
      get_attr env'.fields k = get_attr env.fields k := by
  induction kwargs with
  | nil =>
      intro env env' k _ hup
      injection hup with h'
      subst h'
      rfl
  | cons kv rest ih =>
      intro env env' k hk hup
      simp only [List.map_cons, List.mem_cons, not_or] at hk
      simp only [update_environment] at hup
      by_cases hh : py_hasattr env kv.1
      · rw [if_pos hh] at hup
        cases hset : py_setattr env kv.1 kv.2 with
        | ok env2 =>
            simp only [hset] at hup
            rw [ih env2 env' k hk.2 hup]
            exact py_setattr_ok_fields_ne env kv.1 k kv.2 env2 hk.1 hset
        | raised exc env2 =>
            simp only [hset] at hup
            cases hup
      · rw [if_neg hh] at hup
        exact ih env env' k hk.2 hup

/-- On a successful run over a distinct-key mapping, every field named in
the mapping ends at its given value. -/
theorem update_environment_sets_field (kwargs : List (String × ℝ)) :
    ∀ (env env' : EnvInstance) (k : String) (v : ℝ),
      (kwargs.map Prod.fst).Nodup → (k, v) ∈ kwargs → k ∈ env_field_names →
      update_environment env kwargs = .ok env' →
      get_attr env'.fields k = some v := by
  induction kwargs with
  | nil => intro env env' k v _ hmem _ _; cases hmem
  | cons kv rest ih =>
      intro env env' k v hnd hmem hf hup
      simp only [List.map_cons, List.nodup_cons] at hnd
      simp only [update_environment] at hup
      rcases List.mem_cons.mp hmem with heq | hrest
      · obtain rfl : kv = (k, v) := heq.symm
        have hk : py_hasattr env k := Or.inl hf
        rw [if_pos hk] at hup
        have hset : py_setattr env k v = .ok { env with fields := set_field env.fields k v } := by
          unfold py_setattr
          rw [if_pos hf]
        simp only [hset] at hup
        have hnotin : k ∉ rest.map Prod.fst := by simpa using hnd.1
        rw [update_environment_frame rest _ env' k hnotin hup]
        exact get_attr_set_field_self env.fields k v hf
      · have hkne : kv.1 ≠ k := by
          intro hcontra
          exact hnd.1 (by rw [hcontra]; exact List.mem_map.mpr ⟨(k, v), hrest, rfl⟩)
        by_cases hh : py_hasattr env kv.1
        · rw [if_pos hh] at hup
          cases hset : py_setattr env kv.1 kv.2 with
          | ok env2 =>
              simp only [hset] at hup
              exact ih env2 env' k v hnd.2 hrest hf hup
          | raised exc env2 =>
              simp only [hset] at hup
              cases hup
        · rw [if_neg hh] at hup
          exact ih env env' k v hnd.2 hrest hf hup

/-- C10 counterexample: non-field keys are not always silently ignored.
On the freshly created default engine's env object,
`update_environment(__class__=1.0)` raises TypeError (an error), and
`update_environment(__doc__=1.0)` returns normally but with a shadowing
`__doc__` instance attribute written onto the env object (a state
change), so the result differs from the untouched object. -/
theorem update_environment_dunder_counterexample :
    (update_environment default_env_instance [("__class__", 1.0)] =
      .raised "TypeError" default_env_instance) ∧
    (update_environment default_env_instance [("__doc__", 1.0)] =
      .ok { fields := default_engine.env, extra_attrs := [("__doc__", 1.0)] }) ∧
    (update_environment default_env_instance [("__doc__", 1.0)] ≠
      EnvUpdateResult.ok default_env_instance) := by
  refine ⟨rfl, rfl, ?_⟩
  rw [show update_environment default_env_instance [("__doc__", 1.0)] =
      .ok { fields := default_engine.env, extra_attrs := [("__doc__", 1.0)] } from rfl]
  simp [default_env_instance]

/-- C10 (amended): `update_environment` sets each named key that is an
`EnvironmentalState` field to the given value and leaves every field not
named in the mapping unchanged (both on any normal return); a key the env
object has no attribute for at all is silently ignored (no error, no
state change); but a named key that is an inherited attribute without
being a field is not ignored: `setattr` runs and records it as a
shadowing instance attribute (a state change that leaves the six fields
untouched), and for the non-writable specials it raises — TypeError for
`__class__` and `__dict__`, AttributeError for `__weakref__` — aborting
the remaining updates. -/
theorem update_environment_semantics :
    (∀ (env : EnvInstance) (kwargs : List (String × ℝ)),
      update_environment env kwargs =
        update_environment env (kwargs.filter fun kv => decide (py_hasattr env kv.1))) ∧
    (∀ (env env' : EnvInstance) (kwargs : List (String × ℝ)) (k : String) (v : ℝ),
      (kwargs.map Prod.fst).Nodup → (k, v) ∈ kwargs → k ∈ env_field_names →
      update_environment env kwargs = .ok env' →
      get_attr env'.fields k = some v) ∧
    (∀ (env env' : EnvInstance) (kwargs : List (String × ℝ)) (k : String),
      k ∈ env_field_names → k ∉ kwargs.map Prod.fst →
      update_environment env kwargs = .ok env' →
      get_attr env'.fields k = get_attr env.fields k) ∧
    (∀ (env : EnvInstance) (k : String) (v : ℝ),
      k ∈ env_class_attr_names → k ∉ env_field_names →
      k ≠ "__class__" → k ≠ "__dict__" → k ≠ "__weakref__" →
      update_environment env [(k, v)] =
        .ok { env with extra_attrs := dict_set env.extra_attrs k v }) ∧
    (∀ (env : EnvInstance) (v : ℝ),
      update_environment env [("__class__", v)] = .raised "TypeError" env ∧
      update_environment env [("__dict__", v)] = .raised "TypeError" env ∧
      update_environment env [("__weakref__", v)] = .raised "AttributeError" env) := by
  refine ⟨?_, ?_, ?_, ?_, ?_⟩
  · intro env kwargs
    exact update_environment_filter kwargs env
  · intro env env' kwargs k v hnd hmem hf hup
    exact update_environment_sets_field kwargs env env' k v hnd hmem hf hup
  · intro env env' kwargs k _ hk hup
    exact update_environment_frame kwargs env env' k hk hup
  · intro env k v hcls hfld hc hd hw
    have hk : py_hasattr env k := Or.inr (Or.inl hcls)
    have hset : py_setattr env k v =
        .ok { env with extra_attrs := dict_set env.extra_attrs k v } := by
      unfold py_setattr
      rw [if_neg hfld, if_neg hc, if_neg hd, if_neg hw]
    simp only [update_environment, if_pos hk, hset]
  · intro env v
    have hc : py_hasattr env "__class__" := Or.inr (Or.inl (by decide))
    have hd : py_hasattr env "__dict__" := Or.inr (Or.inl (by decide))
    have hw : py_hasattr env "__weakref__" := Or.inr (Or.inl (by decide))
    refine ⟨?_, ?_, ?_⟩ <;>
      · simp only [update_environment]
        rw [if_pos (by assumption)]
        simp [py_setattr, env_field_names]

/-- Witness for C10 (amended) on the default engine's env object: the
non-attribute key "bogus" is dropped, temperature is set to 25, ph keeps
its value, "__doc__" becomes a shadowing instance attribute, and
"__class__" raises TypeError. -/
theorem update_environment_semantics_witness :
    (update_environment default_env_instance [("temperature", 25), ("bogus", 1)] =
      update_environment default_env_instance
        (([("temperature", 25), ("bogus", 1)] : List (String × ℝ)).filter
          fun kv => decide (py_hasattr default_env_instance kv.1))) ∧
    (get_attr (EnvInstance.mk { default_engine.env with temperature := 25 } []).fields
        "temperature" = some 25) ∧
    (get_attr (EnvInstance.mk { default_engine.env with temperature := 25 } []).fields
        "ph" = get_attr default_env_instance.fields "ph") ∧
    (update_environment default_env_instance [("__doc__", 1)] =
      .ok { default_env_instance with
            extra_attrs := dict_set default_env_instance.extra_attrs "__doc__" 1 }) ∧
    (update_environment default_env_instance [("__class__", 1)] =
      .raised "TypeError" default_env_instance) :=
  ⟨update_environment_semantics.1 default_env_instance _,
   update_environment_semantics.2.1 default_env_instance
     (EnvInstance.mk { default_engine.env with temperature := 25 } [])
     [("temperature", 25)] "temperature" 25 (by simp) (by simp) (by decide) rfl,
   update_environment_semantics.2.2.1 default_env_instance
     (EnvInstance.mk { default_engine.env with temperature := 25 } [])
     [("temperature", 25), ("bogus", 1)] "ph" (by decide) (by decide) rfl,
   update_environment_semantics.2.2.2.1 default_env_instance "__doc__" 1 (by decide)
     (by decide) (by decide) (by decide) (by decide),
   (update_environment_semantics.2.2.2.2 default_env_instance 1).1⟩
